import Mathlib

/-!
# Verification of the LiveCaption streaming caption pipeline

Shallow embedding of the LiveCaption repository (audio_capture.py,
transcription.py, direct_transcription.py, translation.py, live_caption.py,
live_caption_direct.py) together with proofs about the embedded code.

Modelling conventions:
* Python strings are embedded as `List Char` (one element per code point,
  matching Python's `len`/indexing semantics).
* Audio samples (numpy float arrays) are embedded as `List ℚ`, i.e. exact
  rational arithmetic in place of IEEE floating point.  Threshold
  comparisons such as `sqrt(mean(x**2)) < 0.01` are restated in the
  equivalent square-free rational form.
* `queue.Queue` hand-off queues are embedded as `List α` (front = oldest),
  together with the exact semantics of `put_nowait`/`get_nowait`:
  `put_nowait` raises `Full` iff `0 < maxsize ∧ maxsize ≤ len`, and
  `queue.Queue()` (no argument) has `maxsize = 0`, meaning unbounded.
* Python `dict` (used for the translation cache) is embedded as an
  insertion-ordered association list, matching dict semantics since
  Python 3.7: a new key is appended at the end, an existing key keeps its
  position, and iteration over `keys()` is in insertion order.
* `re.sub` with the literal (metacharacter-free) patterns appearing in the
  source is embedded as left-to-right non-overlapping replacement of all
  occurrences; the few genuine regular expressions in the source
  (`^.*?>`, `<.*?>`, `<[^>]*>`, `\[\d+:?\d*\]`, `\s+`) are embedded by
  dedicated scanners implementing exactly their matching behaviour.
-/

/-! ## Python string primitives -/

/-- The set of characters matched by Python's `\s` / stripped by
`str.strip()` on `str` inputs (ASCII whitespace plus the Unicode
whitespace code points). -/
def isPySpace (c : Char) : Bool :=
  (9 ≤ c.toNat && c.toNat ≤ 13) || (28 ≤ c.toNat && c.toNat ≤ 31) ||
  c.toNat = 32 || c.toNat = 0x85 || c.toNat = 0xa0 || c.toNat = 0x1680 ||
  (0x2000 ≤ c.toNat && c.toNat ≤ 0x200a) ||
  c.toNat = 0x2028 || c.toNat = 0x2029 || c.toNat = 0x202f ||
  c.toNat = 0x205f || c.toNat = 0x3000

/-- Python `str.strip()`: remove leading and trailing whitespace. -/
def pyStrip (s : List Char) : List Char :=
  ((s.dropWhile isPySpace).reverse.dropWhile isPySpace).reverse

/-- Auxiliary scanner for `re.sub(r'\s+', ' ', s)`: the flag records
whether we are inside a whitespace run that has already emitted its
single replacement space. -/
def collapseWsAux : Bool → List Char → List Char
  | _, [] => []
  | inRun, c :: rest =>
    if isPySpace c then
      if inRun then collapseWsAux true rest
      else ' ' :: collapseWsAux true rest
    else c :: collapseWsAux false rest

/-- Python `re.sub(r'\s+', ' ', s)`: collapse every maximal whitespace run
to a single space. -/
def collapseWs (s : List Char) : List Char := collapseWsAux false s

/-- Fuel-indexed scanner implementing Python's
`re.sub(pattern, repl, s)` for a literal pattern (equivalently
`s.replace(pat, repl)`): scan left to right, replace each
non-overlapping occurrence, never rescan the replacement.  The fuel is an
upper bound on the number of characters still to be consumed; callers pass
`s.length`, which suffices because every step consumes at least one
character of the remaining input (the `pat ≠ []` guard is vacuous for the
source's patterns, which are all nonempty). -/
def replaceChunk (pat repl : List Char) : Nat → List Char → List Char
  | _, [] => []
  | 0, s => s
  | fuel + 1, c :: rest =>
    if pat ≠ [] ∧ pat.isPrefixOf (c :: rest) then
      repl ++ replaceChunk pat repl fuel ((c :: rest).drop pat.length)
    else
      c :: replaceChunk pat repl fuel rest

/-- Replace every (non-overlapping, leftmost-first) occurrence of the
literal pattern `pat` by `repl`, as `re.sub`/`str.replace` do. -/
def replaceAll (pat repl s : List Char) : List Char :=
  replaceChunk pat repl s.length s

/-- Count the occurrences of a single character, as Python's
`text.count(ch)` does for a one-character argument. -/
def countChar (ch : Char) (s : List Char) : Nat :=
  (s.filter (fun c => c = ch)).length

/-! ## The hand-off queues (`queue.Queue` + the drop-oldest push handler)

All three producer entry points (`SystemAudioCapture._audio_callback_internal`,
`FastJapaneseTranscriber.add_audio_chunk` / `DirectJapaneseChinese.add_audio_chunk`,
`NaturalJapaneseChinese.translate`) share the same shape:

```python
try:
    self.q.put_nowait(item)
except queue.Full:
    try:
        self.q.get_nowait()
        self.q.put_nowait(item)
    except queue.Empty:
        pass
```

`queue.Queue.put_nowait` raises `Full` exactly when `0 < maxsize` and the
current size is at least `maxsize`; `queue.Queue()` with no argument sets
`maxsize = 0`, which the `queue` module documents as an infinite queue. -/

/-- One non-blocking push attempt with the source's drop-oldest handler,
for a queue created with the given `maxsize`.  The front of the list is
the oldest element. -/
def tryPushNowait (maxsize : Nat) (q : List α) (x : α) : List α :=
  if maxsize = 0 ∨ q.length < maxsize then
    q ++ [x]
  else
    match q with
    | [] => q
    | _ :: rest => rest ++ [x]

/-- `maxsize` of the queue created by `queue.Queue()` in
`SystemAudioCapture.__init__` (audio_capture.py line 22). -/
def SystemAudioCapture.audioQueueMaxsize : Nat := 0

/-- `maxsize` of the queue created by `queue.Queue()` in
`FastJapaneseTranscriber.__init__` (transcription.py line 25). -/
def FastJapaneseTranscriber.transcriptionQueueMaxsize : Nat := 0

/-- `maxsize` of the queue created by `queue.Queue()` in
`NaturalJapaneseChinese.__init__` (translation.py line 18). -/
def NaturalJapaneseChinese.translationQueueMaxsize : Nat := 0

/-- `maxsize` of the queue created by `queue.Queue()` in
`DirectJapaneseChinese.__init__` (direct_transcription.py line 23). -/
def DirectJapaneseChinese.transcriptionQueueMaxsize : Nat := 0

/-- Fold a sequence of push attempts into an initially empty queue of the
given `maxsize`. -/
def pushSequence (maxsize : Nat) (xs : List α) : List α :=
  xs.foldl (tryPushNowait maxsize) []

/-- C1 (code_bug evidence): every pipeline queue is created by
`queue.Queue()` with `maxsize = 0`, i.e. unbounded, so `put_nowait` never
raises `Full`, the drop-oldest handler is dead code, and a queue retains
every pushed item: pushing three items leaves all three in the queue (no
eviction, size 3 exceeds any claimed finite capacity bound of these
queues).  For contrast, the same handler over a queue that had been
created with a positive `maxsize` (here 2) would behave as the claim
describes, evicting the oldest item. -/
theorem c1_pipeline_queues_unbounded :
    SystemAudioCapture.audioQueueMaxsize = 0 ∧
    FastJapaneseTranscriber.transcriptionQueueMaxsize = 0 ∧
    NaturalJapaneseChinese.translationQueueMaxsize = 0 ∧
    DirectJapaneseChinese.transcriptionQueueMaxsize = 0 ∧
    pushSequence SystemAudioCapture.audioQueueMaxsize [10, 20, 30] = [10, 20, 30] ∧
    (pushSequence SystemAudioCapture.audioQueueMaxsize [10, 20, 30]).length = 3 ∧
    pushSequence 2 [10, 20, 30] = [20, 30] := by
  decide

/-! ## TranslationStage (`NaturalJapaneseChinese`, translation.py) -/

namespace NaturalJapaneseChinese

/-- The `casual_patterns` substitution table of `_load_casual_patterns`,
in dict insertion order.  All patterns are literal strings (they contain
no regex metacharacters and no cased characters, so `re.IGNORECASE` has
no effect). -/
def casualPatterns : List (String × String) :=
  [("そうだね", "是啊"), ("そうですね", "是的呢"), ("やばい", "糟糕"),
   ("すごい", "厉害"), ("かわいい", "可爱"), ("きれい", "漂亮"),
   ("おいしい", "好吃"), ("つまらない", "无聊"), ("面白い", "有趣"),
   ("大丈夫", "没事"), ("ありがとう", "谢谢"), ("ごめん", "抱歉"),
   ("お疲れ様", "辛苦了"), ("うれしい", "开心"), ("悲しい", "难过"),
   ("怒っている", "生气"), ("びっくり", "吓一跳"), ("恥ずかしい", "害羞"),
   ("えー", "诶"), ("へー", "哦"), ("わー", "哇"), ("うわー", "哇"),
   ("あー", "啊"), ("うー", "嗯"), ("んー", "嗯"), ("何してる", "在干嘛"),
   ("どこに行く", "去哪里"), ("いつ", "什么时候"), ("誰", "谁"),
   ("なぜ", "为什么"), ("どうして", "为什么")]

/-- The `intimate_patterns` substitution table of `_load_intimate_patterns`,
in dict insertion order. -/
def intimatePatterns : List (String × String) :=
  [("好き", "喜欢"), ("愛してる", "爱你"), ("会いたい", "想见你"),
   ("寂しい", "寂寞"), ("欲しい", "想要"), ("触って", "摸摸"),
   ("キス", "亲亲"), ("抱いて", "抱抱"), ("かっこいい", "帅"),
   ("セクシー", "性感"), ("魅力的", "有魅力"), ("気持ちいい", "舒服"),
   ("いい感じ", "感觉不错"), ("ドキドキ", "心跳加速"), ("エッチ", "色色"),
   ("いやらしい", "下流"), ("恥ずかしい", "羞羞")]

/-- `_apply_natural_patterns`: apply the casual table and then the
intimate table, each rule in table order, each rule replacing all of its
occurrences, later rules seeing the output of earlier ones. -/
def applyNaturalPatterns (japaneseText : List Char) : List Char :=
  (casualPatterns ++ intimatePatterns).foldl
    (fun t p => replaceAll p.1.data p.2.data t) japaneseText

/-- `re.sub(r'^.*?>', '', text)` in `_post_process_translation`: the lazy
match removes the shortest prefix ending in `>`; since `.` does not match
a newline, the removal happens only when a `>` occurs before any newline,
and removes the prefix up to and including the first `>`. -/
def removeModelHeader (s : List Char) : List Char :=
  let pre := s.takeWhile (fun c => ¬(c = '>' ∨ c = '\n'))
  match s.drop pre.length with
  | '>' :: rest => rest
  | _ => s

/-- Fuel-indexed scanner for `re.sub(r'<.*?>', '', text)` in
`_post_process_translation`: each lazy match `<.*?>` spans from a `<` to
the first following `>` with no newline in between (`.` excludes
newlines); failed starts are kept and scanning resumes one character
later, as `re.sub` does. -/
def removeAngleTagsChunk : Nat → List Char → List Char
  | _, [] => []
  | 0, s => s
  | fuel + 1, c :: rest =>
    if c = '<' then
      let inner := rest.takeWhile (fun d => ¬(d = '>' ∨ d = '\n'))
      match rest.drop inner.length with
      | '>' :: after => removeAngleTagsChunk fuel after
      | _ => c :: removeAngleTagsChunk fuel rest
    else c :: removeAngleTagsChunk fuel rest

/-- `re.sub(r'<.*?>', '', text)`. -/
def removeAngleTags (s : List Char) : List Char :=
  removeAngleTagsChunk s.length s

/-- The `replacements` table of `_post_process_translation`, in dict
insertion order; applied with `str.replace`, i.e. every occurrence. -/
def formalReplacements : List (String × String) :=
  [("您", "你"), ("請", "请"), ("非常", "很"), ("十分", "很"),
   ("極其", "特别"), ("因此", "所以"), ("然而", "但是"), ("並且", "而且")]

/-- `_post_process_translation`: strip, remove the model prefix and XML
tags, rewrite formal terms to casual ones, collapse whitespace, strip. -/
def postProcessTranslation (chineseText : List Char) : List Char :=
  let t := pyStrip chineseText
  let t := removeModelHeader t
  let t := removeAngleTags t
  let t := formalReplacements.foldl (fun t p => replaceAll p.1.data p.2.data t) t
  let t := collapseWs t
  pyStrip t

/-- The translation cache: an insertion-ordered association list from
stripped source text to translated text (a Python `dict`). -/
abbrev Cache := List (List Char × List Char)

/-- Ordered-dict lookup: first (and by construction only) entry with the
given key. -/
def dictFind (key : List Char) : Cache → Option (List Char)
  | [] => none
  | (k, v) :: rest => if k = key then some v else dictFind key rest

/-- Ordered-dict assignment `d[key] = v`: overwrite in place if the key
exists, else append at the end. -/
def dictInsert (key v : List Char) : Cache → Cache
  | [] => [(key, v)]
  | (k, w) :: rest =>
    if k = key then (k, v) :: rest else (k, w) :: dictInsert key v rest

/-- The cache-size limiting step of `_translate_text` (lines 219-223):
when the cache holds more than 1000 entries, delete the first 100 keys in
insertion order, i.e. drop the 100 oldest entries. -/
def evictIfNeeded (cache : Cache) : Cache :=
  if 1000 < cache.length then cache.drop 100 else cache

/-- `_translate_text`, with the opaque MT inference call abstracted as the
total function `translator` (the `self.translator(...)` pipeline call) and
`modelPresent` standing for `self.model is not None`.  Returns the
translated text, the updated cache, and the number of times the inference
function was invoked (0 or 1). -/
def translateText (modelPresent : Bool) (translator : List Char → List Char)
    (cache : Cache) (japaneseText : List Char) :
    List Char × Cache × Nat :=
  if pyStrip japaneseText = [] then ([], cache, 0)
  else
    let cacheKey := pyStrip japaneseText
    match dictFind cacheKey cache with
    | some v => (v, cache, 0)
    | none =>
      let preprocessedText := applyNaturalPatterns japaneseText
      let chineseText :=
        if modelPresent then translator preprocessedText
        else if preprocessedText ≠ japaneseText then preprocessedText
        else "[翻译] ".data ++ japaneseText
      let finalText := postProcessTranslation chineseText
      let cache1 := dictInsert cacheKey finalText cache
      (finalText, evictIfNeeded cache1, if modelPresent then 1 else 0)

end NaturalJapaneseChinese

namespace NaturalJapaneseChinese

theorem dictFind_eq_none_iff {k : List Char} {c : Cache} :
    dictFind k c = none ↔ ∀ p ∈ c, p.1 ≠ k := by
  induction c with
  | nil => simp [dictFind]
  | cons hd tl ih =>
    obtain ⟨k', v'⟩ := hd
    by_cases h : k' = k <;> simp [dictFind, h, ih]

theorem dictInsert_of_find_none {k : List Char} {c : Cache} (v : List Char)
    (h : dictFind k c = none) : dictInsert k v c = c ++ [(k, v)] := by
  induction c with
  | nil => simp [dictInsert]
  | cons hd tl ih =>
    obtain ⟨k', v'⟩ := hd
    by_cases hk : k' = k
    · simp [dictFind, hk] at h
    · simp [dictFind, hk] at h
      simp [dictInsert, hk, ih h]

theorem dictFind_append_of_none {k : List Char} {a b : Cache}
    (h : dictFind k a = none) :
    dictFind k (a ++ b) = dictFind k b := by
  induction a with
  | nil => simp
  | cons hd tl ih =>
    obtain ⟨k', v'⟩ := hd
    by_cases hk : k' = k
    · simp [dictFind, hk] at h
    · simp [dictFind, hk] at h ⊢
      exact ih h

theorem dictFind_drop_of_none {k : List Char} {c : Cache} (n : Nat)
    (h : dictFind k c = none) : dictFind k (c.drop n) = none := by
  rw [dictFind_eq_none_iff] at h ⊢
  exact fun p hp => h p (List.mem_of_mem_drop hp)

/-- After a miss-and-store, the just-stored key is still found even when
the store triggered the eviction pass, because the stored entry sits at
the end of the (≥ 1001 entry) cache while eviction drops the first 100. -/
theorem dictFind_evictIfNeeded_insert {k : List Char} {c : Cache} (v : List Char)
    (h : dictFind k c = none) :
    dictFind k (evictIfNeeded (dictInsert k v c)) = some v := by
  rw [dictInsert_of_find_none v h, evictIfNeeded]
  split
  · next hlen =>
    have hc : 100 ≤ c.length := by
      simp at hlen
      omega
    rw [List.drop_append_of_le_length hc,
      dictFind_append_of_none (dictFind_drop_of_none 100 h)]
    simp [dictFind]
  · rw [dictFind_append_of_none h]
    simp [dictFind]

end NaturalJapaneseChinese

open NaturalJapaneseChinese in
/-- C2 counterexample: the cache is NOT consulted with the
post-substitution text.  For the input "そうだね" the substitution tables
produce "是啊"; with a cache holding exactly the key "是啊" (value "HIT"),
`_translate_text` nevertheless invokes the inference function once and
does not return the cached value, because the lookup key is the stripped
original input "そうだね". -/
theorem c2_counterexample_lookup_not_post_substitution :
    applyNaturalPatterns "そうだね".data = "是啊".data ∧
    (translateText true id [("是啊".data, "HIT".data)] "そうだね".data).2.2 = 1 ∧
    (translateText true id [("是啊".data, "HIT".data)] "そうだね".data).1 ≠ "HIT".data := by
  decide

open NaturalJapaneseChinese in
/-- C2 (amended): the translation cache is consulted with the stripped
original input text — the key as it is before the substitution tables are
applied — and on a hit the cached result is returned with no inference
invocation and no cache modification. -/
theorem c2_cache_lookup_uses_stripped_input
    (modelPresent : Bool) (translator : List Char → List Char)
    (cache : Cache) (input v : List Char)
    (hne : pyStrip input ≠ [])
    (hhit : dictFind (pyStrip input) cache = some v) :
    translateText modelPresent translator cache input = (v, cache, 0) := by
  simp [translateText, hne, hhit]

open NaturalJapaneseChinese in
/-- Witness for `c2_cache_lookup_uses_stripped_input` at the input "hi"
with a one-entry cache. -/
theorem c2_cache_lookup_uses_stripped_input_witness :
    translateText true id [("hi".data, "你好".data)] "hi".data =
      ("你好".data, [("hi".data, "你好".data)], 0) :=
  c2_cache_lookup_uses_stripped_input true id _ _ _ (by decide) (by decide)

open NaturalJapaneseChinese in
/-- C3 counterexample: with the inference engine unavailable and the
substitutions leaving the input unchanged, `_translate_text` does not
return the original text: for the input "hello" it returns
"[翻译] hello". -/
theorem c3_counterexample_not_original_text :
    (translateText false id [] "hello".data).1 = "[翻译] hello".data ∧
    "[翻译] hello".data ≠ "hello".data := by
  decide

open NaturalJapaneseChinese in
/-- C3 (amended): when the inference engine failed to initialize
(`self.model is None`), an uncached input with nonempty stripped text is
translated to the post-processed substitution-rewritten text when the
substitutions changed the text, and otherwise to the post-processed
string "[翻译] " followed by the original text. -/
theorem c3_fallback_uses_substitution_rewrite
    (translator : List Char → List Char) (cache : Cache) (input : List Char)
    (hne : pyStrip input ≠ [])
    (hmiss : dictFind (pyStrip input) cache = none) :
    (translateText false translator cache input).1 =
      postProcessTranslation
        (if applyNaturalPatterns input ≠ input then applyNaturalPatterns input
         else "[翻译] ".data ++ input) := by
  simp only [translateText, hmiss, if_neg hne]
  simp

open NaturalJapaneseChinese in
/-- Witness for `c3_fallback_uses_substitution_rewrite` at the input
"hello" and the empty cache. -/
theorem c3_fallback_uses_substitution_rewrite_witness :
    (translateText false id [] "hello".data).1 =
      postProcessTranslation
        (if applyNaturalPatterns "hello".data ≠ "hello".data then
           applyNaturalPatterns "hello".data
         else "[翻译] ".data ++ "hello".data) :=
  c3_fallback_uses_substitution_rewrite id [] _ (by decide) (by decide)

/-- A concrete 1001-entry cache used to exercise the eviction branch. -/
def NaturalJapaneseChinese.oneThousandOneCache : NaturalJapaneseChinese.Cache :=
  List.replicate 1001 ("k".data, "v".data)

namespace NaturalJapaneseChinese

/-- Unfolding of `_translate_text` on a cache hit. -/
theorem translateText_hit_eq (modelPresent : Bool)
    (translator : List Char → List Char) (cache : Cache) (input v : List Char)
    (hne : pyStrip input ≠ [])
    (hhit : dictFind (pyStrip input) cache = some v) :
    translateText modelPresent translator cache input = (v, cache, 0) := by
  simp [translateText, hne, hhit]

/-- Unfolding of `_translate_text` on a cache miss. -/
theorem translateText_miss_eq (modelPresent : Bool)
    (translator : List Char → List Char) (cache : Cache) (input : List Char)
    (hne : pyStrip input ≠ [])
    (hmiss : dictFind (pyStrip input) cache = none) :
    translateText modelPresent translator cache input =
      (postProcessTranslation (if modelPresent then translator (applyNaturalPatterns input)
         else if applyNaturalPatterns input ≠ input then applyNaturalPatterns input
         else "[翻译] ".data ++ input),
       evictIfNeeded (dictInsert (pyStrip input)
         (postProcessTranslation (if modelPresent then translator (applyNaturalPatterns input)
           else if applyNaturalPatterns input ≠ input then applyNaturalPatterns input
           else "[翻译] ".data ++ input)) cache),
       if modelPresent then 1 else 0) := by
  simp only [translateText, hmiss, if_neg hne]

end NaturalJapaneseChinese

open NaturalJapaneseChinese in
/-- C5: translating the same exact text twice (the second call on the
cache produced by the first) invokes the inference function at most once
in total, and the eviction step removes exactly the 100 oldest entries
(10% of the 1000-entry limit) when the cache exceeds the limit, and
removes nothing — in particular never the most recent insertion — while
the cache is at or under the limit. -/
theorem c5_cache_invoked_once_and_eviction
    (modelPresent : Bool) (translator : List Char → List Char)
    (cache : Cache) (input : List Char) :
    ((translateText modelPresent translator cache input).2.2 +
      (translateText modelPresent translator
        (translateText modelPresent translator cache input).2.1 input).2.2 ≤ 1) ∧
    (1000 < cache.length → evictIfNeeded cache = cache.drop 100) ∧
    (cache.length ≤ 1000 → evictIfNeeded cache = cache) := by
  refine ⟨?_, ?_, ?_⟩
  · by_cases hne : pyStrip input = []
    · simp [translateText, hne]
    · rcases h : dictFind (pyStrip input) cache with _ | v
      · rw [translateText_miss_eq modelPresent translator cache input hne h]
        dsimp only
        rw [translateText_hit_eq modelPresent translator _ input _ hne
          (dictFind_evictIfNeeded_insert _ h)]
        cases modelPresent <;> simp
      · rw [translateText_hit_eq modelPresent translator cache input v hne h]
        dsimp only
        rw [translateText_hit_eq modelPresent translator cache input v hne h]
        simp
  · intro h
    rw [evictIfNeeded, if_pos h]
  · intro h
    rw [evictIfNeeded, if_neg (by omega)]

open NaturalJapaneseChinese in
/-- Witness for `c5_cache_invoked_once_and_eviction`: a concrete double
translation of "hi", the eviction equation on a concrete 1001-entry
cache, and the no-eviction equation on a concrete 1-entry cache. -/
theorem c5_cache_invoked_once_and_eviction_witness :
    ((translateText true id [] "hi".data).2.2 +
      (translateText true id (translateText true id [] "hi".data).2.1 "hi".data).2.2 ≤ 1) ∧
    evictIfNeeded oneThousandOneCache = oneThousandOneCache.drop 100 ∧
    evictIfNeeded [("a".data, "b".data)] = [("a".data, "b".data)] :=
  ⟨(c5_cache_invoked_once_and_eviction true id [] "hi".data).1,
   (c5_cache_invoked_once_and_eviction true id oneThousandOneCache "hi".data).2.1
     (by unfold oneThousandOneCache; rw [List.length_replicate]; omega),
   (c5_cache_invoked_once_and_eviction true id [("a".data, "b".data)] "hi".data).2.2
     (by simp)⟩

/-! ## Audio preprocessing and the recognition stages
(transcription.py `FastJapaneseTranscriber`,
direct_transcription.py `DirectJapaneseChinese`) -/

/-- `np.max(np.abs(a))` for a nonempty array `a` (numpy raises on an
empty one; callers model that case separately). -/
def listMaxAbs (l : List ℚ) : ℚ :=
  match l with
  | [] => 0
  | x :: xs => xs.foldl (fun acc y => max acc |y|) |x|

/-- The silence gate of both `_transcription_worker`s:
`np.sqrt(np.mean(chunk**2)) < 0.01`.  In exact arithmetic, for a nonempty
chunk `sqrt(mean) < 1/100` iff `mean < 1/10000` iff
`sum * 10000 < length`; for an empty chunk numpy's mean is NaN and the
comparison is false, which coincides with `0 * 10000 < 0` being false. -/
def rmsBelowThreshold (chunk : List ℚ) : Bool :=
  decide ((chunk.map (fun x => x * x)).sum * 10000 < (chunk.length : ℚ))

namespace FastJapaneseTranscriber

/-- `_preprocess_audio` (transcription.py).  The float32 cast is the
identity in the rational model.  `np.max(np.abs(audio_data))` raises a
`ValueError` on an empty array, modelled as `Except.error`.  The target
length `int(16000 * min(30, max(0.5, len/16000)))` is, in exact
arithmetic, `min 480000 (max 8000 len)` (with `min_audio_length = 0.5`s,
`max_audio_length = 30`s at 16000 Hz). -/
def preprocessAudio (chunk : List ℚ) : Except String (List ℚ) :=
  if chunk = [] then
    .error "zero-size array to reduction operation maximum which has no identity"
  else
    let m := listMaxAbs chunk
    let a := if 0 < m then chunk.map (fun x => x / m) else chunk
    let targetLength := min 480000 (max 8000 a.length)
    if a.length < targetLength then .ok (a ++ List.replicate (targetLength - a.length) 0)
    else if targetLength < a.length then .ok (a.take targetLength)
    else .ok a

/-- The post-inference filter of `_transcribe_audio` (transcription.py
lines 105-111): strip the recognized text, then discard it when it is
shorter than 2 characters or when `text.count("ん") > len(text) * 0.8`
(restated exactly over the integers as `4*len < 5*count`). -/
def transcribeFilter (raw : List Char) : List Char :=
  let text := pyStrip raw
  if text.length < 2 ∨ 4 * text.length < 5 * countChar 'ん' text then [] else text

/-- One item-processing step of `_transcription_worker` (transcription.py):
the silence gate, then preprocessing (whose exception is caught by the
worker's `except` clause, producing no result), then the opaque ASR
inference `infer`, then the noise filter; the callback fires only for
nonempty filtered text.  Returns the emitted text (if any) and the number
of inference invocations. -/
def transcriptionWorkerStep (infer : List ℚ → List Char) (chunk : List ℚ) :
    Option (List Char) × Nat :=
  if rmsBelowThreshold chunk then (none, 0)
  else
    match preprocessAudio chunk with
    | .error _ => (none, 0)
    | .ok a =>
      let text := transcribeFilter (infer a)
      (if text = [] then none else some text, 1)

end FastJapaneseTranscriber

namespace DirectJapaneseChinese

/-- `_preprocess_audio` (direct_transcription.py): unlike the legacy
version, the normalization is guarded by `if len(audio_data) > 0`, so the
function is total; padding to `min_samples = 8000` and truncation to
`max_samples = 480000` use the sample counts directly. -/
def preprocessAudio (chunk : List ℚ) : List ℚ :=
  let a :=
    if 0 < chunk.length then
      if 0 < listMaxAbs chunk then chunk.map (fun x => x / listMaxAbs chunk) else chunk
    else chunk
  let a1 := if a.length < 8000 then a ++ List.replicate (8000 - a.length) 0 else a
  if 480000 < a1.length then a1.take 480000 else a1

/-- Fuel-indexed scanner for `re.sub(r'\[\d+:?\d*\]', '', text)`
(direct_transcription.py): a timestamp is `[`, one or more digits, an
optional `:`, any digits, `]`; failed starts keep the `[` and scanning
resumes at the next character, matching `re.sub`'s leftmost
non-overlapping semantics (the character classes are disjoint, so the
greedy match is deterministic).  `\d` also matches non-ASCII decimal
digits in Python; the full-width digits are included alongside
`Char.isDigit` for the scripts at hand. -/
def isPyDigit (c : Char) : Bool := c.isDigit || ('０' ≤ c && c ≤ '９')

def removeTimestampsChunk : Nat → List Char → List Char
  | _, [] => []
  | 0, s => s
  | fuel + 1, c :: rest =>
    if c = '[' then
      let d1 := rest.takeWhile isPyDigit
      if d1 = [] then c :: removeTimestampsChunk fuel rest
      else
        let r1 := rest.drop d1.length
        let r2 := if r1.head? = some ':' then r1.drop 1 else r1
        let r3 := r2.drop (r2.takeWhile isPyDigit).length
        match r3 with
        | ']' :: after => removeTimestampsChunk fuel after
        | _ => c :: removeTimestampsChunk fuel rest
    else c :: removeTimestampsChunk fuel rest

/-- `re.sub(r'\[\d+:?\d*\]', '', text)`. -/
def removeTimestamps (s : List Char) : List Char :=
  removeTimestampsChunk s.length s

/-- Fuel-indexed scanner for `re.sub(r'<[^>]*>', '', text)`
(direct_transcription.py): from each `<`, the match runs to the first
following `>` (newlines included, unlike translation.py's lazy `<.*?>`). -/
def removeXmlLikeTagsChunk : Nat → List Char → List Char
  | _, [] => []
  | 0, s => s
  | fuel + 1, c :: rest =>
    if c = '<' then
      let inner := rest.takeWhile (fun d => ¬d = '>')
      match rest.drop inner.length with
      | '>' :: after => removeXmlLikeTagsChunk fuel after
      | _ => c :: removeXmlLikeTagsChunk fuel rest
    else c :: removeXmlLikeTagsChunk fuel rest

/-- `re.sub(r'<[^>]*>', '', text)`. -/
def removeXmlLikeTags (s : List Char) : List Char :=
  removeXmlLikeTagsChunk s.length s

/-- The artifact-cleaning part of `_post_process_chinese`: strip, remove
timestamps, remove tags, collapse whitespace. -/
def cleanedText (raw : List Char) : List Char :=
  collapseWs (removeXmlLikeTags (removeTimestamps (pyStrip raw)))

/-- `_post_process_chinese` (direct_transcription.py lines 238-260):
after cleaning, discard text shorter than 2 characters, and discard text
with `len(set(text)) < len(text) * 0.3 and len(text) > 5` (restated
exactly over the integers as `10*distinct < 3*len`). -/
def postProcessChinese (raw : List Char) : List Char :=
  if raw = [] then []
  else
    let text := cleanedText raw
    if text.length < 2 then []
    else if text.dedup.length * 10 < text.length * 3 ∧ 5 < text.length then []
    else pyStrip text

/-- One item-processing step of `_transcription_worker`
(direct_transcription.py): the silence gate, then `_transcribe_audio`
(preprocess, the opaque direct inference `infer`, `batch_decode[0].strip()`,
`_post_process_chinese`); the callback fires only for nonempty text. -/
def transcriptionWorkerStep (infer : List ℚ → List Char) (chunk : List ℚ) :
    Option (List Char) × Nat :=
  if rmsBelowThreshold chunk then (none, 0)
  else
    let text := postProcessChinese (pyStrip (infer (preprocessAudio chunk)))
    (if text = [] then none else some text, 1)

end DirectJapaneseChinese

theorem listMaxAbs_foldl_zero (xs : List ℚ) : ∀ acc : ℚ, 0 ≤ acc →
    (∀ x ∈ xs, x = 0) → xs.foldl (fun a y => max a |y|) acc = acc := by
  induction xs with
  | nil => intro acc _ _; rfl
  | cons y ys ih =>
    intro acc hacc h
    have hy : y = (0 : ℚ) := h y (List.mem_cons_self _ _)
    rw [List.foldl_cons, hy, abs_zero, max_eq_left hacc]
    exact ih acc hacc fun x hx => h x (List.mem_cons_of_mem _ hx)

theorem listMaxAbs_eq_zero {l : List ℚ} (h : ∀ x ∈ l, x = 0) :
    listMaxAbs l = 0 := by
  cases l with
  | nil => rfl
  | cons x xs =>
    have hx : x = (0 : ℚ) := h x (List.mem_cons_self _ _)
    show xs.foldl (fun acc y => max acc |y|) |x| = 0
    rw [listMaxAbs_foldl_zero xs |x| (abs_nonneg x)
      (fun y hy => h y (List.mem_cons_of_mem _ hy)), hx, abs_zero]

/-- The legacy preprocessing succeeds on every nonempty chunk and its
output length is clamped to the configured sample-count window. -/
theorem FastJapaneseTranscriber.preprocessAudio_ok_bounds
    (chunk : List ℚ) (h : chunk ≠ []) :
    ∃ out, FastJapaneseTranscriber.preprocessAudio chunk = Except.ok out ∧
      8000 ≤ out.length ∧ out.length ≤ 480000 := by
  simp only [FastJapaneseTranscriber.preprocessAudio, if_neg h]
  set a := if 0 < listMaxAbs chunk then chunk.map (fun x => x / listMaxAbs chunk) else chunk
    with ha
  set t := min 480000 (max 8000 a.length) with ht
  have h8 : 8000 ≤ t := le_min (by norm_num) (le_max_left _ _)
  have h48 : t ≤ 480000 := min_le_left _ _
  by_cases h1 : a.length < t
  · rw [if_pos h1]
    refine ⟨_, rfl, ?_, ?_⟩ <;>
      simp [List.length_append, List.length_replicate] <;> omega
  · rw [if_neg h1]
    by_cases h2 : t < a.length
    · rw [if_pos h2]
      refine ⟨_, rfl, ?_, ?_⟩ <;> simp [List.length_take] <;> omega
    · rw [if_neg h2]
      exact ⟨a, rfl, by omega, by omega⟩

/-- The direct preprocessing is total and its output length is clamped to
the configured sample-count window, for every chunk (empty included). -/
theorem DirectJapaneseChinese.preprocessAudio_bounds (chunk : List ℚ) :
    8000 ≤ (DirectJapaneseChinese.preprocessAudio chunk).length ∧
    (DirectJapaneseChinese.preprocessAudio chunk).length ≤ 480000 := by
  simp only [DirectJapaneseChinese.preprocessAudio]
  set a := if 0 < chunk.length then
      (if 0 < listMaxAbs chunk then chunk.map (fun x => x / listMaxAbs chunk) else chunk)
    else chunk with ha
  set a1 := if a.length < 8000 then a ++ List.replicate (8000 - a.length) 0 else a with ha1
  have hlen : 8000 ≤ a1.length := by
    rw [ha1]
    by_cases hc : a.length < 8000
    · rw [if_pos hc]
      simp only [List.length_append, List.length_replicate]
      omega
    · rw [if_neg hc]
      omega
  by_cases h2 : 480000 < a1.length
  · rw [if_pos h2]
    constructor <;> simp only [List.length_take] <;> omega
  · rw [if_neg h2]
    exact ⟨hlen, by omega⟩

/-- A silent (all-zero) nonempty chunk of at most the maximum length is
only zero-padded by the legacy preprocessing: the normalization guard is
not taken (its maximum is 0, not > 0), so no division happens. -/
theorem FastJapaneseTranscriber.preprocessAudio_silent_legacy
    (chunk : List ℚ) (hne : chunk ≠ []) (hz : ∀ x ∈ chunk, x = 0)
    (hlen : chunk.length ≤ 480000) :
    FastJapaneseTranscriber.preprocessAudio chunk =
      Except.ok (chunk ++ List.replicate (8000 - chunk.length) 0) := by
  have hm : listMaxAbs chunk = 0 := listMaxAbs_eq_zero hz
  simp only [FastJapaneseTranscriber.preprocessAudio, if_neg hne, hm, lt_self_iff_false,
    if_false]
  by_cases h : chunk.length < 8000
  · rw [Nat.max_eq_left h.le, Nat.min_eq_right (by norm_num), if_pos h]
  · push_neg at h
    rw [Nat.max_eq_right h, Nat.min_eq_right hlen]
    rw [if_neg (lt_irrefl _), if_neg (lt_irrefl _)]
    rw [Nat.sub_eq_zero_of_le h]
    simp

/-- A silent (all-zero) chunk of at most the maximum length is only
zero-padded by the direct preprocessing. -/
theorem DirectJapaneseChinese.preprocessAudio_silent_direct
    (chunk : List ℚ) (hz : ∀ x ∈ chunk, x = 0) (hlen : chunk.length ≤ 480000) :
    DirectJapaneseChinese.preprocessAudio chunk =
      chunk ++ List.replicate (8000 - chunk.length) 0 := by
  have hm : listMaxAbs chunk = 0 := listMaxAbs_eq_zero hz
  simp only [DirectJapaneseChinese.preprocessAudio, hm, lt_self_iff_false, if_false,
    ite_self]
  by_cases h : chunk.length < 8000
  · rw [if_pos h]
    rw [if_neg (by simp only [List.length_append, List.length_replicate]; omega)]
  · rw [if_neg h]
    rw [if_neg (by omega)]
    rw [Nat.sub_eq_zero_of_le (by omega)]
    simp

/-- C10 counterexample: the legacy `_preprocess_audio` is not total — on
the empty chunk the unguarded `np.max(np.abs(audio_data))` raises a
`ValueError` (the direct version guards this with `len(audio_data) > 0`). -/
theorem c10_counterexample_empty_chunk_raises :
    FastJapaneseTranscriber.preprocessAudio ([] : List ℚ) =
      Except.error "zero-size array to reduction operation maximum which has no identity" :=
  rfl

/-- C10 (amended): the legacy preprocessing succeeds on every NONEMPTY
chunk (the empty chunk raises, see the counterexample), the direct
preprocessing is total; both divide by the peak amplitude only when it is
strictly positive, so a silent chunk is never divided and — when no longer
than the maximum — passes through with only zero-padding to the minimum
length; every produced output length lies in [8000, 480000] samples. -/
theorem c10_preprocessing_total_and_bounded (chunk : List ℚ) :
    (chunk ≠ [] → ∃ out, FastJapaneseTranscriber.preprocessAudio chunk = Except.ok out ∧
       8000 ≤ out.length ∧ out.length ≤ 480000) ∧
    (8000 ≤ (DirectJapaneseChinese.preprocessAudio chunk).length ∧
       (DirectJapaneseChinese.preprocessAudio chunk).length ≤ 480000) ∧
    (chunk ≠ [] → (∀ x ∈ chunk, x = 0) → chunk.length ≤ 480000 →
       FastJapaneseTranscriber.preprocessAudio chunk =
         Except.ok (chunk ++ List.replicate (8000 - chunk.length) 0)) ∧
    ((∀ x ∈ chunk, x = 0) → chunk.length ≤ 480000 →
       DirectJapaneseChinese.preprocessAudio chunk =
         chunk ++ List.replicate (8000 - chunk.length) 0) :=
  ⟨fun hne => FastJapaneseTranscriber.preprocessAudio_ok_bounds chunk hne,
   DirectJapaneseChinese.preprocessAudio_bounds chunk,
   fun hne hz hl => FastJapaneseTranscriber.preprocessAudio_silent_legacy chunk hne hz hl,
   fun hz hl => DirectJapaneseChinese.preprocessAudio_silent_direct chunk hz hl⟩

/-- Witness for `c10_preprocessing_total_and_bounded` on the concrete
silent chunk `[0]` and the concrete loud chunk `[1]`. -/
theorem c10_preprocessing_total_and_bounded_witness :
    FastJapaneseTranscriber.preprocessAudio [(0 : ℚ)] =
      Except.ok ([(0 : ℚ)] ++ List.replicate (8000 - [(0 : ℚ)].length) 0) ∧
    DirectJapaneseChinese.preprocessAudio [(0 : ℚ)] =
      [(0 : ℚ)] ++ List.replicate (8000 - [(0 : ℚ)].length) 0 ∧
    (∃ out, FastJapaneseTranscriber.preprocessAudio [(1 : ℚ)] = Except.ok out ∧
       8000 ≤ out.length ∧ out.length ≤ 480000) :=
  ⟨(c10_preprocessing_total_and_bounded [(0 : ℚ)]).2.2.1 (by simp)
     (by simp) (by simp),
   (c10_preprocessing_total_and_bounded [(0 : ℚ)]).2.2.2 (by simp) (by simp),
   (c10_preprocessing_total_and_bounded [(1 : ℚ)]).1 (by simp)⟩

/-- C6: a chunk whose RMS volume is below the 0.01 silence threshold
produces no result and no inference invocation in either recognition
worker. -/
theorem c6_silence_gate_no_result_no_inference
    (inferLegacy inferDirect : List ℚ → List Char) (chunk : List ℚ)
    (h : rmsBelowThreshold chunk = true) :
    FastJapaneseTranscriber.transcriptionWorkerStep inferLegacy chunk = (none, 0) ∧
    DirectJapaneseChinese.transcriptionWorkerStep inferDirect chunk = (none, 0) := by
  constructor <;>
    simp [FastJapaneseTranscriber.transcriptionWorkerStep,
      DirectJapaneseChinese.transcriptionWorkerStep, h]

/-- Witness for `c6_silence_gate_no_result_no_inference` on the concrete
quiet chunk `[1/1000]` (RMS 0.001 < 0.01). -/
theorem c6_silence_gate_no_result_no_inference_witness :
    FastJapaneseTranscriber.transcriptionWorkerStep (fun _ => "あ".data) [(1 : ℚ) / 1000] =
      (none, 0) ∧
    DirectJapaneseChinese.transcriptionWorkerStep (fun _ => "あ".data) [(1 : ℚ) / 1000] =
      (none, 0) :=
  c6_silence_gate_no_result_no_inference (fun _ => "あ".data) (fun _ => "あ".data)
    [(1 : ℚ) / 1000] (by norm_num [rmsBelowThreshold])

/-- C4 counterexample: the legacy recognition stage has no
distinct-character-ratio filter.  The text "ああああああ" (length 6 > 5,
distinct-character count 1, ratio 1/6 < 0.3) would be discarded by the
claimed rule, yet the legacy worker emits it: its repetition filter only
counts the character "ん". -/
theorem c4_counterexample_legacy_emits_low_distinct_text :
    (5 < "ああああああ".data.length ∧
      "ああああああ".data.dedup.length * 10 < "ああああああ".data.length * 3) ∧
    (FastJapaneseTranscriber.transcriptionWorkerStep
       (fun _ => "ああああああ".data) [(1 : ℚ)]).1 = some "ああああああ".data := by
  constructor
  · decide
  · have hrms : rmsBelowThreshold [(1 : ℚ)] = false := by norm_num [rmsBelowThreshold]
    obtain ⟨a, ha, -, -⟩ :=
      FastJapaneseTranscriber.preprocessAudio_ok_bounds [(1 : ℚ)] (by simp)
    simp only [FastJapaneseTranscriber.transcriptionWorkerStep, hrms, Bool.false_eq_true,
      if_false, ha]
    decide

/-- C4 (amended): the post-inference noise filters, per stage.  Direct
stage (`_post_process_chinese`): cleaned text shorter than 2 characters
is discarded, and cleaned text longer than 5 characters whose
distinct-character count is below 0.3 of its length is discarded, in
which case the worker emits no result.  Legacy stage
(`_transcribe_audio`): stripped text shorter than 2 characters is
discarded, and text in which "ん" accounts for more than 0.8 of the
characters is discarded; there is no distinct-character-ratio rule. -/
theorem c4_noise_filter_rules (raw : List Char) (infer : List ℚ → List Char)
    (chunk : List ℚ) :
    ((DirectJapaneseChinese.cleanedText raw).length < 2 →
       DirectJapaneseChinese.postProcessChinese raw = []) ∧
    (5 < (DirectJapaneseChinese.cleanedText raw).length →
       (DirectJapaneseChinese.cleanedText raw).dedup.length * 10 <
         (DirectJapaneseChinese.cleanedText raw).length * 3 →
       DirectJapaneseChinese.postProcessChinese raw = []) ∧
    ((pyStrip raw).length < 2 → FastJapaneseTranscriber.transcribeFilter raw = []) ∧
    (4 * (pyStrip raw).length < 5 * countChar 'ん' (pyStrip raw) →
       FastJapaneseTranscriber.transcribeFilter raw = []) ∧
    (DirectJapaneseChinese.postProcessChinese
        (pyStrip (infer (DirectJapaneseChinese.preprocessAudio chunk))) = [] →
       (DirectJapaneseChinese.transcriptionWorkerStep infer chunk).1 = none) := by
  refine ⟨?_, ?_, ?_, ?_, ?_⟩
  · intro h
    by_cases hr : raw = []
    · simp [DirectJapaneseChinese.postProcessChinese, hr]
    · simp [DirectJapaneseChinese.postProcessChinese, hr, h]
  · intro h5 hlt
    by_cases hr : raw = []
    · simp [DirectJapaneseChinese.postProcessChinese, hr]
    · have h2 : ¬(DirectJapaneseChinese.cleanedText raw).length < 2 := by omega
      simp [DirectJapaneseChinese.postProcessChinese, hr, h2, h5, hlt]
  · intro h
    simp [FastJapaneseTranscriber.transcribeFilter, h]
  · intro h
    simp [FastJapaneseTranscriber.transcribeFilter, h]
  · intro h
    by_cases hrms : rmsBelowThreshold chunk
    · simp [DirectJapaneseChinese.transcriptionWorkerStep, hrms]
    · simp [DirectJapaneseChinese.transcriptionWorkerStep, hrms, h]

/-- Witness for `c4_noise_filter_rules` at concrete texts: "x" (too
short, direct), "aaaaaa" (repetitive, direct), "a" (too short, legacy),
"んんん" (ん-dominated, legacy), and a worker step whose filtered text is
empty. -/
theorem c4_noise_filter_rules_witness :
    DirectJapaneseChinese.postProcessChinese "x".data = [] ∧
    DirectJapaneseChinese.postProcessChinese "aaaaaa".data = [] ∧
    FastJapaneseTranscriber.transcribeFilter "a".data = [] ∧
    FastJapaneseTranscriber.transcribeFilter "んんん".data = [] ∧
    (DirectJapaneseChinese.transcriptionWorkerStep (fun _ => []) [(1 : ℚ)]).1 = none :=
  ⟨(c4_noise_filter_rules "x".data (fun _ => []) [(1 : ℚ)]).1 (by decide),
   (c4_noise_filter_rules "aaaaaa".data (fun _ => []) [(1 : ℚ)]).2.1 (by decide) (by decide),
   (c4_noise_filter_rules "a".data (fun _ => []) [(1 : ℚ)]).2.2.1 (by decide),
   (c4_noise_filter_rules "んんん".data (fun _ => []) [(1 : ℚ)]).2.2.2.1 (by decide),
   (c4_noise_filter_rules [] (fun _ => []) [(1 : ℚ)]).2.2.2.2 (by decide)⟩

/-! ## Service lifecycle state machines (start/stop) -/

/-- The externally observable lifecycle state of a worker-thread service:
the running flag plus a count of worker threads ever spawned. -/
structure WorkerService where
  isRunning : Bool
  threadsSpawned : Nat
deriving DecidableEq

/-- `start()` as implemented identically (line for line, up to naming) by
`FastJapaneseTranscriber.start` (transcription.py 163-171),
`NaturalJapaneseChinese.start` (translation.py 273-281) and
`DirectJapaneseChinese.start` (direct_transcription.py 305-313): return
immediately when already running, else set the flag and spawn one worker
thread. -/
def workerServiceStart (s : WorkerService) : WorkerService :=
  if s.isRunning then s
  else { isRunning := true, threadsSpawned := s.threadsSpawned + 1 }

/-- `stop()` as implemented identically by the same three classes
(transcription.py 173-183, translation.py 283-293,
direct_transcription.py 315-325): return immediately when not running,
else clear the flag and join the worker with a bounded timeout (the join
returns in any case and spawns nothing). -/
def workerServiceStop (s : WorkerService) : WorkerService :=
  if s.isRunning then { s with isRunning := false } else s

namespace SystemAudioCapture

/-- `start_capture` (audio_capture.py 97-127): return immediately when
already recording; otherwise device selection / stream setup may raise
(`startOk = false`), in which case `is_recording` is reset to `False` and
the exception propagates with the service left stopped; on success the
processing thread is spawned and the service is recording. -/
def startCapture (startOk : Bool) (s : WorkerService) : WorkerService :=
  if s.isRunning then s
  else if startOk then { isRunning := true, threadsSpawned := s.threadsSpawned + 1 }
  else s

/-- `stop_capture` (audio_capture.py 129-143): return immediately when
not recording, else clear the flag, close the stream and join the
processing thread with a bounded timeout. -/
def stopCapture (s : WorkerService) : WorkerService :=
  if s.isRunning then { s with isRunning := false } else s

end SystemAudioCapture

/-- C7: for every pipeline service, `start()` twice in a row equals
`start()` once (same state, no second worker spawned), `stop()` twice
equals `stop()` once, `start()` when Running and `stop()` when Stopped
are exact no-ops, `start()` leaves the service Running (for capture: when
startup succeeds), and `stop()` leaves it Stopped — so the only state
transitions are Stopped→Running on `start()` and Running→Stopped on
`stop()`. -/
theorem c7_lifecycle_idempotent_transitions (s : WorkerService) (startOk : Bool) :
    workerServiceStart (workerServiceStart s) = workerServiceStart s ∧
    workerServiceStop (workerServiceStop s) = workerServiceStop s ∧
    (s.isRunning = true → workerServiceStart s = s) ∧
    (s.isRunning = false → workerServiceStop s = s) ∧
    (workerServiceStart s).isRunning = true ∧
    (workerServiceStop s).isRunning = false ∧
    SystemAudioCapture.startCapture startOk (SystemAudioCapture.startCapture startOk s) =
      SystemAudioCapture.startCapture startOk s ∧
    SystemAudioCapture.stopCapture (SystemAudioCapture.stopCapture s) =
      SystemAudioCapture.stopCapture s ∧
    (s.isRunning = true → SystemAudioCapture.startCapture startOk s = s) ∧
    (s.isRunning = false → SystemAudioCapture.stopCapture s = s) ∧
    (s.isRunning = false → startOk = true →
      (SystemAudioCapture.startCapture startOk s).isRunning = true) ∧
    (SystemAudioCapture.stopCapture s).isRunning = false := by
  cases s with
  | mk running spawned =>
    cases running <;> cases startOk <;>
      simp [workerServiceStart, workerServiceStop,
        SystemAudioCapture.startCapture, SystemAudioCapture.stopCapture]

/-- Witness for `c7_lifecycle_idempotent_transitions` at the concrete
states Stopped-with-no-thread and Running-with-one-thread. -/
theorem c7_lifecycle_idempotent_transitions_witness :
    workerServiceStart ⟨true, 1⟩ = ⟨true, 1⟩ ∧
    workerServiceStop ⟨false, 0⟩ = ⟨false, 0⟩ ∧
    SystemAudioCapture.startCapture true ⟨true, 1⟩ = ⟨true, 1⟩ ∧
    SystemAudioCapture.stopCapture ⟨false, 0⟩ = ⟨false, 0⟩ ∧
    (SystemAudioCapture.startCapture true ⟨false, 0⟩).isRunning = true :=
  ⟨(c7_lifecycle_idempotent_transitions ⟨true, 1⟩ true).2.2.1 rfl,
   (c7_lifecycle_idempotent_transitions ⟨false, 0⟩ true).2.2.2.1 rfl,
   (c7_lifecycle_idempotent_transitions ⟨true, 1⟩ true).2.2.2.2.2.2.2.2.1 rfl,
   (c7_lifecycle_idempotent_transitions ⟨false, 0⟩ true).2.2.2.2.2.2.2.2.2.1 rfl,
   (c7_lifecycle_idempotent_transitions ⟨false, 0⟩ true).2.2.2.2.2.2.2.2.2.2.1 rfl rfl⟩

/-! ## Orchestrators (live_caption.py `LiveCaptionApp`,
live_caption_direct.py `LiveCaptionDirectApp`) -/

namespace LiveCaptionDirectApp

/-- The stage-related fields of `LiveCaptionDirectApp` after
`_setup_components` / `_start_services` / `_stop_services`. -/
structure Components where
  useDirectMode : Bool
  directRunning : Bool
  legacyTranscriberRunning : Bool
  legacyTranslatorRunning : Bool
  captureRunning : Bool
deriving DecidableEq

/-- Freshly initialized components: nothing running yet, mode as chosen. -/
def initialComponents (useDirect : Bool) : Components :=
  { useDirectMode := useDirect, directRunning := false,
    legacyTranscriberRunning := false, legacyTranslatorRunning := false,
    captureRunning := false }

/-- `_setup_components` (live_caption_direct.py 53-99) together with
`_setup_legacy_mode` (101-118): try the Direct-mode initializer; if it
raises, fall back to the Legacy-mode initializers and set
`use_direct_mode = False`; if those raise too, the startup error
"Both direct and legacy modes failed to initialize" propagates. -/
def setupComponents (directInitOk legacyInitOk : Bool) : Except String Components :=
  if directInitOk then .ok (initialComponents true)
  else if legacyInitOk then .ok (initialComponents false)
  else .error "Both direct and legacy modes failed to initialize"

/-- `_start_services` (live_caption_direct.py 170-188): start the
stage(s) of the selected mode, then audio capture last; the mode field is
only read, never written. -/
def startServices (s : Components) : Components :=
  if s.useDirectMode then { s with directRunning := true, captureRunning := true }
  else { s with legacyTranscriberRunning := true,
                legacyTranslatorRunning := true,
                captureRunning := true }

/-- `_stop_services` (live_caption_direct.py 190-209): stop capture
first, then the stage(s) of the selected mode; the mode field is only
read, never written. -/
def stopServices (s : Components) : Components :=
  if s.useDirectMode then { s with captureRunning := false, directRunning := false }
  else { s with captureRunning := false,
                legacyTranscriberRunning := false,
                legacyTranslatorRunning := false }

end LiveCaptionDirectApp

/-- C8: when the Direct-mode initializer raises and the Legacy-mode
initializers succeed, setup ends in Legacy mode (`use_direct_mode` is
false) and after `_start_services` both legacy stages are Running; and
neither starting nor stopping services ever changes the mode. -/
theorem c8_mode_fallback_to_legacy (s : LiveCaptionDirectApp.Components) :
    (LiveCaptionDirectApp.setupComponents false true).map
      (fun c => c.useDirectMode) = Except.ok false ∧
    (LiveCaptionDirectApp.setupComponents false true).map
      (fun c => ((LiveCaptionDirectApp.startServices c).legacyTranscriberRunning,
        (LiveCaptionDirectApp.startServices c).legacyTranslatorRunning)) =
      Except.ok (true, true) ∧
    (LiveCaptionDirectApp.startServices s).useDirectMode = s.useDirectMode ∧
    (LiveCaptionDirectApp.stopServices s).useDirectMode = s.useDirectMode := by
  refine ⟨rfl, rfl, ?_, ?_⟩ <;>
    · simp only [LiveCaptionDirectApp.startServices, LiveCaptionDirectApp.stopServices]
      split <;> rfl

namespace LiveCaptionApp

/-- One component `stop()` call during `_stop_services`: `raises` models
an exception escaping the call (e.g. from `self.stream.stop()`);
`joinTimedOut` models `Thread.join(timeout)` hitting its timeout, which
Python reports by returning normally — so the flag cannot influence
control flow. -/
def componentStop (raises joinTimedOut : Bool) : Except String Unit :=
  if raises then .error "stop raised" else .ok ()

/-- `_stop_services` (live_caption.py 139-154): plain sequential calls
with no try/except — `stop_capture()` first, then `transcriber.stop()`,
then `translator.stop()`; an exception escaping any of them aborts the
sequence.  Returns the stops attempted, in order, and the escaped
exception if any. -/
def stopServices (capRaises capJoinTimedOut transRaises transJoinTimedOut
    translRaises translJoinTimedOut : Bool) : List String × Option String :=
  match componentStop capRaises capJoinTimedOut with
  | .error e => (["audio_capture.stop_capture"], some e)
  | .ok _ =>
    match componentStop transRaises transJoinTimedOut with
    | .error e => (["audio_capture.stop_capture", "transcriber.stop"], some e)
    | .ok _ =>
      match componentStop translRaises translJoinTimedOut with
      | .error e =>
        (["audio_capture.stop_capture", "transcriber.stop", "translator.stop"], some e)
      | .ok _ =>
        (["audio_capture.stop_capture", "transcriber.stop", "translator.stop"], none)

end LiveCaptionApp

/-- C9 counterexample: when `stop_capture()` raises, the remaining stops
are NOT attempted — `transcriber.stop()` and `translator.stop()` never
run, contradicting "every stop is attempted even if an earlier stop
raises". -/
theorem c9_counterexample_raise_skips_remaining_stops :
    (LiveCaptionApp.stopServices true false false false false false).1 =
      ["audio_capture.stop_capture"] ∧
    "transcriber.stop" ∉ (LiveCaptionApp.stopServices true false false false false false).1 := by
  decide

/-- C9 (amended): shutdown stops capture first, then recognition, then
translation, in that order (the attempted-stop list is always a prefix of
that order, starting with capture); join timeouts never prevent the later
stops (the outcome is independent of all `joinTimedOut` flags); but an
exception raised by an earlier stop propagates and skips the remaining
stops. -/
theorem c9_shutdown_order_and_timeouts
    (capR capJ transR transJ translR translJ : Bool) :
    LiveCaptionApp.stopServices false capJ false transJ false translJ =
      (["audio_capture.stop_capture", "transcriber.stop", "translator.stop"], none) ∧
    (LiveCaptionApp.stopServices capR capJ transR transJ translR translJ).1.head? =
      some "audio_capture.stop_capture" ∧
    (LiveCaptionApp.stopServices capR capJ transR transJ translR translJ).1 =
      ["audio_capture.stop_capture", "transcriber.stop", "translator.stop"].take
        (LiveCaptionApp.stopServices capR capJ transR transJ translR translJ).1.length := by
  cases capR <;> cases transR <;> cases translR <;>
    simp [LiveCaptionApp.stopServices, LiveCaptionApp.componentStop]
